import Mathlib

/-!
Shallow embedding of the wgpu-types crate (src/wgpu-types/src/lib.rs):
the capability model (Backend, BackendBit, Limits), the format metadata
tables (TextureFormat, VertexFormat), the label-carrying resource
descriptors with their map_label projections, and the validation
predicates (is_read_only, uses_color, has_dynamic_offset).

Machine integers (u8/u32/u64) are modelled as Nat: the operations used
here (comparisons, small shifts, bitwise and/or on values below 2^32)
never overflow, so the embedding agrees with the Rust semantics.
Fallible operations (bitflags from_bits followed by unwrap) are modelled
with Option, where none models the panic of unwrap.
-/

namespace Wgpu

/-- Backends supported by wgpu, with the explicit discriminants of the
source enum as tags. -/
inductive Backend
  | Empty
  | Vulkan
  | Metal
  | Dx12
  | Dx11
  | Gl
  | BrowserWebGpu
deriving DecidableEq

/-- The explicit discriminant of each Backend variant (`Empty = 0`,
`Vulkan = 1`, ..., `BrowserWebGpu = 6`). -/
def Backend.tag : Backend → Nat
  | .Empty => 0
  | .Vulkan => 1
  | .Metal => 2
  | .Dx12 => 3
  | .Dx11 => 4
  | .Gl => 5
  | .BrowserWebGpu => 6

namespace BackendBit

/-- `BackendBit::VULKAN = 1 << Backend::Vulkan as u32`. -/
def VULKAN : Nat := 1 <<< Backend.tag Backend.Vulkan

/-- `BackendBit::GL = 1 << Backend::Gl as u32` (named GL_FLAG here because `GL` is reserved notation in Mathlib). -/
def GL_FLAG : Nat := 1 <<< Backend.tag Backend.Gl

/-- `BackendBit::METAL = 1 << Backend::Metal as u32`. -/
def METAL : Nat := 1 <<< Backend.tag Backend.Metal

/-- `BackendBit::DX12 = 1 << Backend::Dx12 as u32`. -/
def DX12 : Nat := 1 <<< Backend.tag Backend.Dx12

/-- `BackendBit::DX11 = 1 << Backend::Dx11 as u32`. -/
def DX11 : Nat := 1 <<< Backend.tag Backend.Dx11

/-- `BackendBit::BROWSER_WEBGPU = 1 << Backend::BrowserWebGpu as u32`. -/
def BROWSER_WEBGPU : Nat := 1 <<< Backend.tag Backend.BrowserWebGpu

/-- `BackendBit::PRIMARY = VULKAN | METAL | DX12 | BROWSER_WEBGPU`. -/
def PRIMARY : Nat := VULKAN ||| METAL ||| DX12 ||| BROWSER_WEBGPU

/-- `BackendBit::SECONDARY = GL | DX11`. -/
def SECONDARY : Nat := GL_FLAG ||| DX11

/-- The union of all defined flags of the BackendBit bitflags type
(what `BackendBit::all().bits()` returns). -/
def allBits : Nat :=
  VULKAN ||| GL_FLAG ||| METAL ||| DX12 ||| DX11 ||| BROWSER_WEBGPU ||| PRIMARY ||| SECONDARY

/-- bitflags `BackendBit::from_bits`: `Some` exactly when every set bit
of the argument is a defined flag bit (`bits & !all == 0`, stated here
as `bits &&& allBits = bits` since Nat has no complement). -/
def from_bits (bits : Nat) : Option Nat :=
  if bits &&& allBits = bits then some bits else none

/-- `impl From<Backend> for BackendBit`:
`BackendBit::from_bits(1 << backend as u32).unwrap()`. The `unwrap`
panic is modelled by none. -/
def fromBackend (b : Backend) : Option Nat :=
  from_bits (1 <<< b.tag)

end BackendBit

/-- Numeric limits advertised by an adapter or requested for a device,
in the declaration order of the source struct. All fields are u32. -/
structure Limits where
  max_bind_groups : Nat
  max_dynamic_uniform_buffers_per_pipeline_layout : Nat
  max_dynamic_storage_buffers_per_pipeline_layout : Nat
  max_sampled_textures_per_shader_stage : Nat
  max_samplers_per_shader_stage : Nat
  max_storage_buffers_per_shader_stage : Nat
  max_storage_textures_per_shader_stage : Nat
  max_uniform_buffers_per_shader_stage : Nat
  max_uniform_buffer_binding_size : Nat
  max_push_constant_size : Nat
deriving DecidableEq

/-- `impl Default for Limits`. -/
def Limits.default : Limits :=
  { max_bind_groups := 4
    max_dynamic_uniform_buffers_per_pipeline_layout := 8
    max_dynamic_storage_buffers_per_pipeline_layout := 4
    max_sampled_textures_per_shader_stage := 16
    max_samplers_per_shader_stage := 16
    max_storage_buffers_per_shader_stage := 4
    max_storage_textures_per_shader_stage := 4
    max_uniform_buffers_per_shader_stage := 12
    max_uniform_buffer_binding_size := 16384
    max_push_constant_size := 0 }

/-- The i-th field of a Limits value in declaration order (0 to 9);
indices 10 and above return 0. -/
def Limits.getField (l : Limits) : Nat → Nat
  | 0 => l.max_bind_groups
  | 1 => l.max_dynamic_uniform_buffers_per_pipeline_layout
  | 2 => l.max_dynamic_storage_buffers_per_pipeline_layout
  | 3 => l.max_sampled_textures_per_shader_stage
  | 4 => l.max_samplers_per_shader_stage
  | 5 => l.max_storage_buffers_per_shader_stage
  | 6 => l.max_storage_textures_per_shader_stage
  | 7 => l.max_uniform_buffers_per_shader_stage
  | 8 => l.max_uniform_buffer_binding_size
  | 9 => l.max_push_constant_size
  | _ => 0

/-- Replace the i-th field (declaration order) of a Limits value by v;
indices 10 and above leave the value unchanged. -/
def Limits.setField (l : Limits) (i v : Nat) : Limits :=
  match i with
  | 0 => { l with max_bind_groups := v }
  | 1 => { l with max_dynamic_uniform_buffers_per_pipeline_layout := v }
  | 2 => { l with max_dynamic_storage_buffers_per_pipeline_layout := v }
  | 3 => { l with max_sampled_textures_per_shader_stage := v }
  | 4 => { l with max_samplers_per_shader_stage := v }
  | 5 => { l with max_storage_buffers_per_shader_stage := v }
  | 6 => { l with max_storage_textures_per_shader_stage := v }
  | 7 => { l with max_uniform_buffers_per_shader_stage := v }
  | 8 => { l with max_uniform_buffer_binding_size := v }
  | 9 => { l with max_push_constant_size := v }
  | _ => l

/-- Modelled from the spec: `Limits::fits_within(requested, advertised)`
is not defined in src/wgpu-types/src/lib.rs (only the Limits struct is);
the spec describes it as the field-wise `requested.field ≤
advertised.field` conjunction over every one of the ten fields, with no
field skipped. -/
def Limits.fits_within (requested advertised : Limits) : Bool :=
  decide (requested.max_bind_groups ≤ advertised.max_bind_groups) &&
  decide (requested.max_dynamic_uniform_buffers_per_pipeline_layout ≤
    advertised.max_dynamic_uniform_buffers_per_pipeline_layout) &&
  decide (requested.max_dynamic_storage_buffers_per_pipeline_layout ≤
    advertised.max_dynamic_storage_buffers_per_pipeline_layout) &&
  decide (requested.max_sampled_textures_per_shader_stage ≤
    advertised.max_sampled_textures_per_shader_stage) &&
  decide (requested.max_samplers_per_shader_stage ≤
    advertised.max_samplers_per_shader_stage) &&
  decide (requested.max_storage_buffers_per_shader_stage ≤
    advertised.max_storage_buffers_per_shader_stage) &&
  decide (requested.max_storage_textures_per_shader_stage ≤
    advertised.max_storage_textures_per_shader_stage) &&
  decide (requested.max_uniform_buffers_per_shader_stage ≤
    advertised.max_uniform_buffers_per_shader_stage) &&
  decide (requested.max_uniform_buffer_binding_size ≤
    advertised.max_uniform_buffer_binding_size) &&
  decide (requested.max_push_constant_size ≤ advertised.max_push_constant_size)

/-- The comparison derived by `#[derive(PartialOrd, Ord)]` on Limits:
Rust derives the lexicographic comparison of the fields in declaration
order. -/
def Limits.cmp (a b : Limits) : Ordering :=
  (compare a.max_bind_groups b.max_bind_groups).then <|
  (compare a.max_dynamic_uniform_buffers_per_pipeline_layout
    b.max_dynamic_uniform_buffers_per_pipeline_layout).then <|
  (compare a.max_dynamic_storage_buffers_per_pipeline_layout
    b.max_dynamic_storage_buffers_per_pipeline_layout).then <|
  (compare a.max_sampled_textures_per_shader_stage
    b.max_sampled_textures_per_shader_stage).then <|
  (compare a.max_samplers_per_shader_stage b.max_samplers_per_shader_stage).then <|
  (compare a.max_storage_buffers_per_shader_stage
    b.max_storage_buffers_per_shader_stage).then <|
  (compare a.max_storage_textures_per_shader_stage
    b.max_storage_textures_per_shader_stage).then <|
  (compare a.max_uniform_buffers_per_shader_stage
    b.max_uniform_buffers_per_shader_stage).then <|
  (compare a.max_uniform_buffer_binding_size
    b.max_uniform_buffer_binding_size).then <|
  (compare a.max_push_constant_size b.max_push_constant_size)

/-- The `<=` of the derived PartialOrd on Limits: `a.cmp(b) != Greater`. -/
def Limits.le (a b : Limits) : Bool :=
  match Limits.cmp a b with
  | Ordering.gt => false
  | _ => true

/-- Underlying texture data format, with the explicit discriminants
0 to 37 of the source enum. -/
inductive TextureFormat
  | R8Unorm
  | R8Snorm
  | R8Uint
  | R8Sint
  | R16Uint
  | R16Sint
  | R16Float
  | Rg8Unorm
  | Rg8Snorm
  | Rg8Uint
  | Rg8Sint
  | R32Uint
  | R32Sint
  | R32Float
  | Rg16Uint
  | Rg16Sint
  | Rg16Float
  | Rgba8Unorm
  | Rgba8UnormSrgb
  | Rgba8Snorm
  | Rgba8Uint
  | Rgba8Sint
  | Bgra8Unorm
  | Bgra8UnormSrgb
  | Rgb10a2Unorm
  | Rg11b10Float
  | Rg32Uint
  | Rg32Sint
  | Rg32Float
  | Rgba16Uint
  | Rgba16Sint
  | Rgba16Float
  | Rgba32Uint
  | Rgba32Sint
  | Rgba32Float
  | Depth32Float
  | Depth24Plus
  | Depth24PlusStencil8
deriving DecidableEq

/-- Type of data shaders will read from a texture. -/
inductive TextureComponentType
  | Float
  | Sint
  | Uint
deriving DecidableEq

/-- `impl From<TextureFormat> for TextureComponentType`, with the match
arms in the order of the source. -/
def TextureComponentType.fromFormat : TextureFormat → TextureComponentType
  | TextureFormat.R8Uint
  | TextureFormat.R16Uint
  | TextureFormat.Rg8Uint
  | TextureFormat.R32Uint
  | TextureFormat.Rg16Uint
  | TextureFormat.Rgba8Uint
  | TextureFormat.Rg32Uint
  | TextureFormat.Rgba16Uint
  | TextureFormat.Rgba32Uint => TextureComponentType.Uint
  | TextureFormat.R8Sint
  | TextureFormat.R16Sint
  | TextureFormat.Rg8Sint
  | TextureFormat.R32Sint
  | TextureFormat.Rg16Sint
  | TextureFormat.Rgba8Sint
  | TextureFormat.Rg32Sint
  | TextureFormat.Rgba16Sint
  | TextureFormat.Rgba32Sint => TextureComponentType.Sint
  | TextureFormat.R8Unorm
  | TextureFormat.R8Snorm
  | TextureFormat.R16Float
  | TextureFormat.R32Float
  | TextureFormat.Rg8Unorm
  | TextureFormat.Rg8Snorm
  | TextureFormat.Rg16Float
  | TextureFormat.Rg11b10Float
  | TextureFormat.Rg32Float
  | TextureFormat.Rgba8Snorm
  | TextureFormat.Rgba16Float
  | TextureFormat.Rgba32Float
  | TextureFormat.Rgba8Unorm
  | TextureFormat.Rgba8UnormSrgb
  | TextureFormat.Bgra8Unorm
  | TextureFormat.Bgra8UnormSrgb
  | TextureFormat.Rgb10a2Unorm
  | TextureFormat.Depth32Float
  | TextureFormat.Depth24Plus
  | TextureFormat.Depth24PlusStencil8 => TextureComponentType.Float

/-- Vertex format for a vertex attribute, with the explicit
discriminants 0 to 29 of the source enum. -/
inductive VertexFormat
  | Uchar2
  | Uchar4
  | Char2
  | Char4
  | Uchar2Norm
  | Uchar4Norm
  | Char2Norm
  | Char4Norm
  | Ushort2
  | Ushort4
  | Short2
  | Short4
  | Ushort2Norm
  | Ushort4Norm
  | Short2Norm
  | Short4Norm
  | Half2
  | Half4
  | Float
  | Float2
  | Float3
  | Float4
  | Uint
  | Uint2
  | Uint3
  | Uint4
  | Int
  | Int2
  | Int3
  | Int4
deriving DecidableEq

/-- `VertexFormat::size` (returns u64), with the match arms of the
source. -/
def VertexFormat.size : VertexFormat → Nat
  | VertexFormat.Uchar2
  | VertexFormat.Char2
  | VertexFormat.Uchar2Norm
  | VertexFormat.Char2Norm => 2
  | VertexFormat.Uchar4
  | VertexFormat.Char4
  | VertexFormat.Uchar4Norm
  | VertexFormat.Char4Norm
  | VertexFormat.Ushort2
  | VertexFormat.Short2
  | VertexFormat.Ushort2Norm
  | VertexFormat.Short2Norm
  | VertexFormat.Half2
  | VertexFormat.Float
  | VertexFormat.Uint
  | VertexFormat.Int => 4
  | VertexFormat.Ushort4
  | VertexFormat.Short4
  | VertexFormat.Ushort4Norm
  | VertexFormat.Short4Norm
  | VertexFormat.Half4
  | VertexFormat.Float2
  | VertexFormat.Uint2
  | VertexFormat.Int2 => 8
  | VertexFormat.Float3 | VertexFormat.Uint3 | VertexFormat.Int3 => 12
  | VertexFormat.Float4 | VertexFormat.Uint4 | VertexFormat.Int4 => 16

/-- Comparison function used for depth and stencil operations. -/
inductive CompareFunction
  | Undefined
  | Never
  | Less
  | Equal
  | LessEqual
  | Greater
  | NotEqual
  | GreaterEqual
  | Always
deriving DecidableEq

/-- `CompareFunction::is_trivial`: true for Never and Always. -/
def CompareFunction.is_trivial : CompareFunction → Bool
  | CompareFunction.Never | CompareFunction.Always => true
  | _ => false

/-- Operation to perform on the stencil value. -/
inductive StencilOperation
  | Keep
  | Zero
  | Replace
  | Invert
  | IncrementClamp
  | DecrementClamp
  | IncrementWrap
  | DecrementWrap
deriving DecidableEq

/-- Describes stencil state for one face in a render pipeline. -/
structure StencilStateFaceDescriptor where
  compare : CompareFunction
  fail_op : StencilOperation
  depth_fail_op : StencilOperation
  pass_op : StencilOperation
deriving DecidableEq

/-- `StencilStateFaceDescriptor::IGNORE`. -/
def StencilStateFaceDescriptor.IGNORE : StencilStateFaceDescriptor :=
  { compare := CompareFunction.Always
    fail_op := StencilOperation.Keep
    depth_fail_op := StencilOperation.Keep
    pass_op := StencilOperation.Keep }

/-- Describes the depth/stencil state in a render pipeline. The two
mask fields are u32. -/
structure DepthStencilStateDescriptor where
  format : TextureFormat
  depth_write_enabled : Bool
  depth_compare : CompareFunction
  stencil_front : StencilStateFaceDescriptor
  stencil_back : StencilStateFaceDescriptor
  stencil_read_mask : Nat
  stencil_write_mask : Nat
deriving DecidableEq

/-- `DepthStencilStateDescriptor::needs_stencil_reference`. -/
def DepthStencilStateDescriptor.needs_stencil_reference
    (s : DepthStencilStateDescriptor) : Bool :=
  !s.stencil_front.compare.is_trivial || !s.stencil_back.compare.is_trivial

/-- `DepthStencilStateDescriptor::is_read_only`:
`!self.depth_write_enabled && self.stencil_write_mask == 0`. -/
def DepthStencilStateDescriptor.is_read_only
    (s : DepthStencilStateDescriptor) : Bool :=
  !s.depth_write_enabled && decide (s.stencil_write_mask = 0)

/-- Alpha blend factor, with the explicit discriminants 0 to 12 of the
source enum. -/
inductive BlendFactor
  | Zero
  | One
  | SrcColor
  | OneMinusSrcColor
  | SrcAlpha
  | OneMinusSrcAlpha
  | DstColor
  | OneMinusDstColor
  | DstAlpha
  | OneMinusDstAlpha
  | SrcAlphaSaturated
  | BlendColor
  | OneMinusBlendColor
deriving DecidableEq

/-- Alpha blend operation. -/
inductive BlendOperation
  | Add
  | Subtract
  | ReverseSubtract
  | Min
  | Max
deriving DecidableEq

/-- Describes the blend state of a pipeline. -/
structure BlendDescriptor where
  src_factor : BlendFactor
  dst_factor : BlendFactor
  operation : BlendOperation
deriving DecidableEq

/-- `BlendDescriptor::uses_color`, with the match arms of the source:
true when src_factor or dst_factor is BlendColor or
OneMinusBlendColor. -/
def BlendDescriptor.uses_color (d : BlendDescriptor) : Bool :=
  match d.src_factor, d.dst_factor with
  | BlendFactor.BlendColor, _ => true
  | BlendFactor.OneMinusBlendColor, _ => true
  | _, BlendFactor.BlendColor => true
  | _, BlendFactor.OneMinusBlendColor => true
  | _, _ => false

/-- BufferUsage bitflags (u32), carried opaquely by BufferDescriptor. -/
structure BufferUsage where
  bits : Nat
deriving DecidableEq

/-- TextureUsage bitflags (u32), carried opaquely by TextureDescriptor. -/
structure TextureUsage where
  bits : Nat
deriving DecidableEq

/-- ShaderStage bitflags (u32). -/
structure ShaderStage where
  bits : Nat
deriving DecidableEq

/-- Dimensionality of a texture. -/
inductive TextureDimension
  | D1
  | D2
  | D3
deriving DecidableEq

/-- Dimensions of a particular texture view. -/
inductive TextureViewDimension
  | D1
  | D2
  | D2Array
  | Cube
  | CubeArray
  | D3
deriving DecidableEq

/-- Kind of data the texture holds. -/
inductive TextureAspect
  | All
  | StencilOnly
  | DepthOnly
deriving DecidableEq

/-- How edges should be handled in texture addressing. -/
inductive AddressMode
  | ClampToEdge
  | Repeat
  | MirrorRepeat
deriving DecidableEq

/-- Texel mixing mode when sampling between texels. -/
inductive FilterMode
  | Nearest
  | Linear
deriving DecidableEq

/-- Extent of a texture related operation (three u32 fields). -/
structure Extent3d where
  width : Nat
  height : Nat
  depth : Nat
deriving DecidableEq

/-- An f32 value carried opaquely by a descriptor, modelled by its raw
32-bit pattern; map_label only copies it, so no float arithmetic is
ever performed. -/
structure F32 where
  bits : Nat
deriving DecidableEq

/-- `BufferSize = std::num::NonZeroU64`. -/
def BufferSize := { n : Nat // 0 < n }

/-- Describes a Buffer; L is the label representation type. -/
structure BufferDescriptor (L : Type) where
  label : L
  size : Nat
  usage : BufferUsage
  mapped_at_creation : Bool

/-- `BufferDescriptor::map_label`. -/
def BufferDescriptor.map_label {L K : Type} (d : BufferDescriptor L)
    (fun' : L → K) : BufferDescriptor K :=
  { label := fun' d.label
    size := d.size
    usage := d.usage
    mapped_at_creation := d.mapped_at_creation }

/-- Describes a CommandEncoder. -/
structure CommandEncoderDescriptor (L : Type) where
  label : L

/-- `CommandEncoderDescriptor::map_label`. -/
def CommandEncoderDescriptor.map_label {L K : Type}
    (d : CommandEncoderDescriptor L) (fun' : L → K) :
    CommandEncoderDescriptor K :=
  { label := fun' d.label }

/-- Describes a Texture. -/
structure TextureDescriptor (L : Type) where
  label : L
  size : Extent3d
  mip_level_count : Nat
  sample_count : Nat
  dimension : TextureDimension
  format : TextureFormat
  usage : TextureUsage

/-- `TextureDescriptor::map_label`. -/
def TextureDescriptor.map_label {L K : Type} (d : TextureDescriptor L)
    (fun' : L → K) : TextureDescriptor K :=
  { label := fun' d.label
    size := d.size
    mip_level_count := d.mip_level_count
    sample_count := d.sample_count
    dimension := d.dimension
    format := d.format
    usage := d.usage }

/-- Describes a TextureView. -/
structure TextureViewDescriptor (L : Type) where
  label : L
  format : TextureFormat
  dimension : TextureViewDimension
  aspect : TextureAspect
  base_mip_level : Nat
  level_count : Nat
  base_array_layer : Nat
  array_layer_count : Nat

/-- `TextureViewDescriptor::map_label`. -/
def TextureViewDescriptor.map_label {L K : Type}
    (d : TextureViewDescriptor L) (fun' : L → K) : TextureViewDescriptor K :=
  { label := fun' d.label
    format := d.format
    dimension := d.dimension
    aspect := d.aspect
    base_mip_level := d.base_mip_level
    level_count := d.level_count
    base_array_layer := d.base_array_layer
    array_layer_count := d.array_layer_count }

/-- Describes a Sampler; the two lod clamp fields are f32 and
anisotropy_clamp is Option of u8. -/
structure SamplerDescriptor (L : Type) where
  label : L
  address_mode_u : AddressMode
  address_mode_v : AddressMode
  address_mode_w : AddressMode
  mag_filter : FilterMode
  min_filter : FilterMode
  mipmap_filter : FilterMode
  lod_min_clamp : F32
  lod_max_clamp : F32
  compare : Option CompareFunction
  anisotropy_clamp : Option Nat

/-- `SamplerDescriptor::map_label`. -/
def SamplerDescriptor.map_label {L K : Type} (d : SamplerDescriptor L)
    (fun' : L → K) : SamplerDescriptor K :=
  { label := fun' d.label
    address_mode_u := d.address_mode_u
    address_mode_v := d.address_mode_v
    address_mode_w := d.address_mode_w
    mag_filter := d.mag_filter
    min_filter := d.min_filter
    mipmap_filter := d.mipmap_filter
    lod_min_clamp := d.lod_min_clamp
    lod_max_clamp := d.lod_max_clamp
    compare := d.compare
    anisotropy_clamp := d.anisotropy_clamp }

/-- Describes a RenderBundle. -/
structure RenderBundleDescriptor (L : Type) where
  label : L

/-- `RenderBundleDescriptor::map_label`. -/
def RenderBundleDescriptor.map_label {L K : Type}
    (d : RenderBundleDescriptor L) (fun' : L → K) : RenderBundleDescriptor K :=
  { label := fun' d.label }

/-- Specific type of a binding. -/
inductive BindingType
  | UniformBuffer (dynamic : Bool) (min_binding_size : Option BufferSize)
  | StorageBuffer (dynamic : Bool) (min_binding_size : Option BufferSize)
      (readonly : Bool)
  | Sampler (comparison : Bool)
  | SampledTexture (dimension : TextureViewDimension)
      (component_type : TextureComponentType) (multisampled : Bool)
  | StorageTexture (dimension : TextureViewDimension)
      (format : TextureFormat) (readonly : Bool)

/-- Describes a single binding inside a bind group; binding is u32 and
count is Option of u32. -/
structure BindGroupLayoutEntry where
  binding : Nat
  visibility : ShaderStage
  ty : BindingType
  count : Option Nat

/-- `BindGroupLayoutEntry::new`: builds an entry from binding,
visibility and ty, with `count: None`. -/
def BindGroupLayoutEntry.new (binding : Nat) (visibility : ShaderStage)
    (ty : BindingType) : BindGroupLayoutEntry :=
  { binding := binding
    visibility := visibility
    ty := ty
    count := none }

/-- `BindGroupLayoutEntry::has_dynamic_offset`. -/
def BindGroupLayoutEntry.has_dynamic_offset (e : BindGroupLayoutEntry) : Bool :=
  match e.ty with
  | BindingType.UniformBuffer dynamic _ => dynamic
  | BindingType.StorageBuffer dynamic _ _ => dynamic
  | _ => false

/-! Theorems. Helper lemmas first, then one theorem per claim. -/

/-- Helper: fits_within is exactly the field-wise comparison of the ten
fields in declaration order. -/
theorem Limits.fits_within_iff (r a : Limits) :
    r.fits_within a = true ↔ ∀ i, i < 10 → r.getField i ≤ a.getField i := by
  obtain ⟨r0, r1, r2, r3, r4, r5, r6, r7, r8, r9⟩ := r
  obtain ⟨a0, a1, a2, a3, a4, a5, a6, a7, a8, a9⟩ := a
  simp only [fits_within, Bool.and_eq_true, decide_eq_true_eq]
  constructor
  · rintro ⟨⟨⟨⟨⟨⟨⟨⟨⟨h0, h1⟩, h2⟩, h3⟩, h4⟩, h5⟩, h6⟩, h7⟩, h8⟩, h9⟩ i hi
    interval_cases i <;> simpa [Limits.getField]
  · intro h
    exact ⟨⟨⟨⟨⟨⟨⟨⟨⟨h 0 (by omega), h 1 (by omega)⟩, h 2 (by omega)⟩,
      h 3 (by omega)⟩, h 4 (by omega)⟩, h 5 (by omega)⟩, h 6 (by omega)⟩,
      h 7 (by omega)⟩, h 8 (by omega)⟩, h 9 (by omega)⟩

/-- Helper: reading back the field just set. -/
theorem Limits.getField_setField (l : Limits) (i v : Nat) (hi : i < 10) :
    (l.setField i v).getField i = v := by
  interval_cases i <;> rfl

/-- Claim C1 counterexample: the claim says the conversion of every
Backend value to a backend bit-set is total and never fails, but at
Backend.Empty the source computes from_bits(1 << 0) = from_bits(1),
bit 0 is not a defined BackendBit flag, and the unwrap panics (modelled
here by none). -/
theorem backendBitFrom_empty_fails :
    BackendBit.fromBackend Backend.Empty = none := by decide

/-- Claim C1 (amended): for every Backend value b other than Empty, the
conversion succeeds and yields exactly the singleton set 1 << tag(b);
the tags of the seven variants are pairwise distinct, making the
conversion bijective onto singleton sets over the non-Empty variants. -/
theorem backendBitFrom_singleton :
    (∀ b : Backend, b ≠ Backend.Empty →
      BackendBit.fromBackend b = some (1 <<< b.tag))
  ∧ (∀ b b' : Backend, b.tag = b'.tag → b = b') := by
  constructor
  · intro b hb
    cases b
    · exact absurd rfl hb
    all_goals decide
  · intro b b' h
    cases b <;> cases b' <;> first | rfl | exact absurd h (by decide)

/-- Claim C1 witness: the amended theorem applied at Vulkan, and the tag
injectivity applied at Metal. -/
theorem backendBitFrom_singleton_witness :
    BackendBit.fromBackend Backend.Vulkan =
      some (1 <<< Backend.tag Backend.Vulkan) ∧
    Backend.Metal = Backend.Metal :=
  ⟨backendBitFrom_singleton.1 Backend.Vulkan (by decide),
   backendBitFrom_singleton.2 Backend.Metal Backend.Metal (by decide)⟩

/-- Claim C2: fits_within is the conjunction of requested.field ≤
advertised.field over every one of the ten limit fields with no field
skipped; it is reflexive, and raising any single field of requested
strictly above advertised's corresponding field makes the result
false. -/
theorem limits_fits_within_spec :
    (∀ r a : Limits,
      r.fits_within a = true ↔ ∀ i, i < 10 → r.getField i ≤ a.getField i)
  ∧ (∀ x : Limits, x.fits_within x = true)
  ∧ (∀ i, i < 10 → ∀ (r a : Limits) (v : Nat), a.getField i < v →
      (r.setField i v).fits_within a = false) := by
  refine ⟨Limits.fits_within_iff, ?_, ?_⟩
  · intro x
    exact (Limits.fits_within_iff x x).mpr (fun i _ => le_refl _)
  · intro i hi r a v hv
    rw [Bool.eq_false_iff]
    intro hcontra
    have hle := (Limits.fits_within_iff _ a).mp hcontra i hi
    rw [Limits.getField_setField r i v hi] at hle
    omega

/-- Claim C2 witness: raising field 0 of the all-zero Limits to 5 makes
it no longer fit within an advertised value whose field 0 is 4. -/
theorem limits_fits_within_spec_witness :
    ((Limits.mk 0 0 0 0 0 0 0 0 0 0).setField 0 5).fits_within
      (Limits.mk 4 0 0 0 0 0 0 0 0 0) = false :=
  limits_fits_within_spec.2.2 0 (by decide)
    (Limits.mk 0 0 0 0 0 0 0 0 0 0) (Limits.mk 4 0 0 0 0 0 0 0 0 0) 5
    (by decide)

/-- Claim C3: TextureComponentType.fromFormat is total over all 38
TextureFormat variants, always returning one of Float, Sint, Uint, and
is deterministic (equal inputs give equal results). -/
theorem textureComponentType_from_total :
    (∀ f : TextureFormat,
      TextureComponentType.fromFormat f = TextureComponentType.Float ∨
      TextureComponentType.fromFormat f = TextureComponentType.Sint ∨
      TextureComponentType.fromFormat f = TextureComponentType.Uint)
  ∧ (∀ f g : TextureFormat, f = g →
      TextureComponentType.fromFormat f = TextureComponentType.fromFormat g) := by
  constructor
  · intro f
    cases f <;> decide
  · intro f g h
    rw [h]

/-- Claim C3 witness: the theorem applied at R8Unorm. -/
theorem textureComponentType_from_total_witness :
    (TextureComponentType.fromFormat TextureFormat.R8Unorm =
        TextureComponentType.Float ∨
      TextureComponentType.fromFormat TextureFormat.R8Unorm =
        TextureComponentType.Sint ∨
      TextureComponentType.fromFormat TextureFormat.R8Unorm =
        TextureComponentType.Uint) ∧
    TextureComponentType.fromFormat TextureFormat.R8Uint =
      TextureComponentType.fromFormat TextureFormat.R8Uint :=
  ⟨textureComponentType_from_total.1 TextureFormat.R8Unorm,
   textureComponentType_from_total.2 TextureFormat.R8Uint TextureFormat.R8Uint
     rfl⟩

/-- Claim C4: VertexFormat.size is defined on all 30 variants and its
result is always one of 2, 4, 8, 12, 16. -/
theorem vertexFormat_size_total :
    ∀ f : VertexFormat,
      f.size = 2 ∨ f.size = 4 ∨ f.size = 8 ∨ f.size = 12 ∨ f.size = 16 := by
  intro f
  cases f <;> decide

/-- Claim C5: for each of the six label-carrying descriptor types,
map_label produces a descriptor whose label is f applied to the old
label and whose every other field equals the corresponding field of the
input. -/
theorem map_label_preserves_fields :
    (∀ (L K : Type) (d : BufferDescriptor L) (f : L → K),
      (d.map_label f).label = f d.label ∧
      (d.map_label f).size = d.size ∧
      (d.map_label f).usage = d.usage ∧
      (d.map_label f).mapped_at_creation = d.mapped_at_creation)
  ∧ (∀ (L K : Type) (d : TextureDescriptor L) (f : L → K),
      (d.map_label f).label = f d.label ∧
      (d.map_label f).size = d.size ∧
      (d.map_label f).mip_level_count = d.mip_level_count ∧
      (d.map_label f).sample_count = d.sample_count ∧
      (d.map_label f).dimension = d.dimension ∧
      (d.map_label f).format = d.format ∧
      (d.map_label f).usage = d.usage)
  ∧ (∀ (L K : Type) (d : TextureViewDescriptor L) (f : L → K),
      (d.map_label f).label = f d.label ∧
      (d.map_label f).format = d.format ∧
      (d.map_label f).dimension = d.dimension ∧
      (d.map_label f).aspect = d.aspect ∧
      (d.map_label f).base_mip_level = d.base_mip_level ∧
      (d.map_label f).level_count = d.level_count ∧
      (d.map_label f).base_array_layer = d.base_array_layer ∧
      (d.map_label f).array_layer_count = d.array_layer_count)
  ∧ (∀ (L K : Type) (d : SamplerDescriptor L) (f : L → K),
      (d.map_label f).label = f d.label ∧
      (d.map_label f).address_mode_u = d.address_mode_u ∧
      (d.map_label f).address_mode_v = d.address_mode_v ∧
      (d.map_label f).address_mode_w = d.address_mode_w ∧
      (d.map_label f).mag_filter = d.mag_filter ∧
      (d.map_label f).min_filter = d.min_filter ∧
      (d.map_label f).mipmap_filter = d.mipmap_filter ∧
      (d.map_label f).lod_min_clamp = d.lod_min_clamp ∧
      (d.map_label f).lod_max_clamp = d.lod_max_clamp ∧
      (d.map_label f).compare = d.compare ∧
      (d.map_label f).anisotropy_clamp = d.anisotropy_clamp)
  ∧ (∀ (L K : Type) (d : CommandEncoderDescriptor L) (f : L → K),
      (d.map_label f).label = f d.label)
  ∧ (∀ (L K : Type) (d : RenderBundleDescriptor L) (f : L → K),
      (d.map_label f).label = f d.label) :=
  ⟨fun _ _ _ _ => ⟨rfl, rfl, rfl, rfl⟩,
   fun _ _ _ _ => ⟨rfl, rfl, rfl, rfl, rfl, rfl, rfl⟩,
   fun _ _ _ _ => ⟨rfl, rfl, rfl, rfl, rfl, rfl, rfl, rfl⟩,
   fun _ _ _ _ => ⟨rfl, rfl, rfl, rfl, rfl, rfl, rfl, rfl, rfl, rfl, rfl⟩,
   fun _ _ _ _ => rfl,
   fun _ _ _ _ => rfl⟩

/-- Claim C6: map_label satisfies the functor laws on each of the six
label-carrying descriptor types: mapping with g after mapping with f
equals mapping with g after f, and mapping with the identity is the
identity. -/
theorem map_label_functorial :
    (∀ (L K M : Type) (d : BufferDescriptor L) (f : L → K) (g : K → M),
      (d.map_label f).map_label g = d.map_label (g ∘ f) ∧ d.map_label id = d)
  ∧ (∀ (L K M : Type) (d : TextureDescriptor L) (f : L → K) (g : K → M),
      (d.map_label f).map_label g = d.map_label (g ∘ f) ∧ d.map_label id = d)
  ∧ (∀ (L K M : Type) (d : TextureViewDescriptor L) (f : L → K) (g : K → M),
      (d.map_label f).map_label g = d.map_label (g ∘ f) ∧ d.map_label id = d)
  ∧ (∀ (L K M : Type) (d : SamplerDescriptor L) (f : L → K) (g : K → M),
      (d.map_label f).map_label g = d.map_label (g ∘ f) ∧ d.map_label id = d)
  ∧ (∀ (L K M : Type) (d : CommandEncoderDescriptor L) (f : L → K) (g : K → M),
      (d.map_label f).map_label g = d.map_label (g ∘ f) ∧ d.map_label id = d)
  ∧ (∀ (L K M : Type) (d : RenderBundleDescriptor L) (f : L → K) (g : K → M),
      (d.map_label f).map_label g = d.map_label (g ∘ f) ∧ d.map_label id = d) :=
  ⟨fun _ _ _ _ _ _ => ⟨rfl, rfl⟩,
   fun _ _ _ _ _ _ => ⟨rfl, rfl⟩,
   fun _ _ _ _ _ _ => ⟨rfl, rfl⟩,
   fun _ _ _ _ _ _ => ⟨rfl, rfl⟩,
   fun _ _ _ _ _ _ => ⟨rfl, rfl⟩,
   fun _ _ _ _ _ _ => ⟨rfl, rfl⟩⟩

/-- Claim C7: is_read_only is true exactly when depth_write_enabled is
false and stencil_write_mask is 0; in particular the state with both
stencil faces set to IGNORE, depth writes disabled and write mask 0 is
read-only whatever its other fields are. -/
theorem depthStencil_is_read_only_spec :
    (∀ s : DepthStencilStateDescriptor,
      s.is_read_only = true ↔
        (s.depth_write_enabled = false ∧ s.stencil_write_mask = 0))
  ∧ (∀ (fmt : TextureFormat) (cmp : CompareFunction) (rm : Nat),
      (DepthStencilStateDescriptor.mk fmt false cmp
        StencilStateFaceDescriptor.IGNORE StencilStateFaceDescriptor.IGNORE
        rm 0).is_read_only = true) := by
  constructor
  · intro s
    simp [DepthStencilStateDescriptor.is_read_only, Bool.and_eq_true,
      Bool.not_eq_true', decide_eq_true_eq]
  · intro fmt cmp rm
    rfl

/-- Claim C8: uses_color is true exactly when src_factor or dst_factor
is BlendColor or OneMinusBlendColor; in particular the descriptor with
src BlendColor, dst Zero and operation Add uses the blend color. -/
theorem blend_uses_color_spec :
    (∀ d : BlendDescriptor,
      d.uses_color = true ↔
        (d.src_factor = BlendFactor.BlendColor ∨
         d.src_factor = BlendFactor.OneMinusBlendColor ∨
         d.dst_factor = BlendFactor.BlendColor ∨
         d.dst_factor = BlendFactor.OneMinusBlendColor))
  ∧ (BlendDescriptor.mk BlendFactor.BlendColor BlendFactor.Zero
      BlendOperation.Add).uses_color = true := by
  constructor
  · intro d
    obtain ⟨s, t, o⟩ := d
    cases s <;> cases t <;> simp [BlendDescriptor.uses_color]
  · rfl

/-- Claim C9: the order derived on Limits is lexicographic in field
declaration order and does not coincide with field-wise dominance:
there are Limits a and b with a ≤ b under the derived order while some
field of a strictly exceeds the corresponding field of b (so a does not
fit within b). -/
theorem derived_order_not_dominance :
    ∃ a b : Limits,
      Limits.le a b = true ∧
      a.fits_within b = false ∧
      ∃ i, i < 10 ∧ b.getField i < a.getField i := by
  refine ⟨Limits.mk 1 5 0 0 0 0 0 0 0 0, Limits.mk 2 0 0 0 0 0 0 0 0 0,
    ?_, ?_, 1, ?_, ?_⟩ <;> decide

/-- Claim C10: BindGroupLayoutEntry.new returns an entry whose count is
none and whose binding, visibility and ty equal the given arguments. -/
theorem bindGroupLayoutEntry_new_spec :
    ∀ (binding : Nat) (visibility : ShaderStage) (ty : BindingType),
      (BindGroupLayoutEntry.new binding visibility ty).count = none ∧
      (BindGroupLayoutEntry.new binding visibility ty).binding = binding ∧
      (BindGroupLayoutEntry.new binding visibility ty).visibility = visibility ∧
      (BindGroupLayoutEntry.new binding visibility ty).ty = ty :=
  fun _ _ _ => ⟨rfl, rfl, rfl, rfl⟩

end Wgpu
